import Mathlib

/-!
Shallow embedding of the XWiki connector (`backend/onyx/connectors/xwiki/`):
`connector.py` (checkpointed batch iteration), `onyx_xwiki.py` (REST/SOLR
client: query construction, page resolution, HTTP error handling) and
`utils.py` (attachment processing pipeline).

Conventions used throughout:
* Python `None`-able values are `Option`; Python truthiness of an optional
  string is `getD "" ≠ ""`, of an optional int `getD 0 ≠ 0`.
* Machine-external collaborators (network calls, text extraction, image
  storage, accepted-type tables from `onyx.file_processing`) are fields of an
  explicit environment record; each field models one successful or failing
  call of the collaborator.
* A Python exception that propagates out of embedded code (rather than being
  caught) is `PyResult.exn`.
-/

/-- Python truthiness of an optional string (`None` and `""` are falsy). -/
def pyTruthyStr (o : Option String) : Bool := o.getD "" != ""

/-- Python truthiness of an optional int (`None` and `0` are falsy). -/
def pyTruthyInt (o : Option Int) : Bool := o.getD 0 != 0

/-! Kernel-reducible string primitives.  The Lean core `String` functions
(`splitOn`, `contains`, `startsWith`, `replace`, ...) are written against
byte positions and do not reduce inside the kernel, so the embedding uses
these characterwise equivalents (Python slices and scans strings by code
point, which is exactly `String.data`). -/

/-- Characterwise prefix test. -/
def listPrefixEq : List Char → List Char → Bool
  | [], _ => true
  | _ :: _, [] => false
  | a :: as, b :: bs => a == b && listPrefixEq as bs

/-- Python `s.startswith(p)`. -/
def chStartsWith (s p : String) : Bool := listPrefixEq p.data s.data

/-- Python `s.endswith(p)`. -/
def chEndsWith (s p : String) : Bool := listPrefixEq p.data.reverse s.data.reverse

/-- Python `c in s` for a single character. -/
def chContains (s : String) (c : Char) : Bool := s.data.contains c

/-- Python `s[:n]`. -/
def chTake (s : String) (n : Nat) : String := String.mk (s.data.take n)

/-- Python `s[:-n]` (for `0 < n ≤ len(s)`). -/
def chDropRight (s : String) (n : Nat) : String :=
  String.mk (s.data.take (s.data.length - n))

/-- Drop the longest prefix of characters satisfying `p` (Python `lstrip`). -/
def chDropWhile (s : String) (p : Char → Bool) : String :=
  String.mk (s.data.dropWhile p)

/-- Python `s.lower()` (ASCII range, as the source's media types are). -/
def chToLower (s : String) : String := String.mk (s.data.map Char.toLower)

/-- Worker for `chSplitOn`: scan `s` left to right, cutting at each
occurrence of the non-empty separator; `fuel` bounds the recursion by the
input length. -/
def splitOnFuel (sep : List Char) : Nat → List Char → List Char → List (List Char)
  | _, [], acc => [acc.reverse]
  | 0, rest, acc => [acc.reverse ++ rest]
  | fuel + 1, c :: cs, acc =>
    if sep ≠ [] ∧ listPrefixEq sep (c :: cs) then
      acc.reverse :: splitOnFuel sep fuel (cs.drop (sep.length - 1)) []
    else
      splitOnFuel sep fuel cs (c :: acc)

/-- Python `s.split(sep)` for a non-empty separator: the pieces between
non-overlapping left-to-right occurrences of `sep`. -/
def chSplitOn (s sep : String) : List String :=
  if sep = "" then [s]
  else (splitOnFuel sep.data s.data.length s.data []).map String.mk

/-- Join a list of strings with a separator. -/
def chIntercalate (sep : String) : List String → String
  | [] => ""
  | a :: as => as.foldl (fun acc x => acc ++ sep ++ x) a

/-- Python `s.replace(old, new)` for a non-empty `old` (equal to
`new.join(s.split(old))`); the source only replaces non-empty patterns. -/
def chReplace (s old new : String) : String :=
  if old = "" then s else chIntercalate new (chSplitOn s old)

/-- Python `str.partition(sep)`: split at the first occurrence of `sep`,
returning (head, separator-found?, tail). -/
def pyPartition (s sep : String) : String × Bool × String :=
  match chSplitOn s sep with
  | [] => (s, false, "")
  | [x] => (x, false, "")
  | x :: rest => (x, true, chIntercalate sep rest)

/-- Python substring containment `sub in s` (for the fixed non-empty needles
used by the source). -/
def pyContainsSub (s sub : String) : Bool :=
  if sub = "" then true else (chSplitOn s sub).length ≥ 2

/-- A Python exception escaping a modelled function, versus a normal value. -/
inductive PyResult (α : Type) where
  | ok (value : α)
  | exn
deriving DecidableEq, Repr

/-! ### Data model (`onyx_xwiki.py` dataclasses / pydantic models) -/

/-- Mirror of the `XWikiAttachment` pydantic model.  `download_path` is a
required `str` field (pydantic rejects `None` there, see `_list_attachments`). -/
structure XWikiAttachment where
  name : String
  size : Option Int := none
  mime_type : Option String := none
  download_path : String
  version : Option String := none
  digest : Option String := none
deriving DecidableEq, Repr

/-- Mirror of the `XWikiPage` dataclass.  The dataclass annotates `id`,
`full_name`, `page_url` as `str` and `modified_ms` as `int`, but
`_load_page_data` fills them straight from `dict.get` results, which may be
absent; Python does not enforce the annotations, so the fields are `Option`
here. -/
structure XWikiPage where
  id : Option String
  full_name : Option String
  page_url : Option String
  modified_ms : Option Int
  content : String
  attachments : List XWikiAttachment
deriving DecidableEq, Repr

/-- Mirror of `XWikiCheckpoint` (`connector.py`): `has_more` inherited from
`ConnectorCheckpoint`, plus the incremental-sync cursor fields. -/
structure XWikiCheckpoint where
  has_more : Bool := true
  since_ms : Option Int := none
  offset : Nat := 0
deriving DecidableEq, Repr

instance : Inhabited XWikiCheckpoint := ⟨{}⟩

/-! ### `XWikiConnector.load_from_checkpoint` (`connector.py`)

The network round trip (`query_pages`) is abstracted by passing its two
results — the resolved page list and the raw hit count — as arguments, and
per-page document construction (`process_xwiki_page`, whose exceptions the
loop catches) as a function `process` where `none` models "raised". -/

/-- The per-page loop body of `load_from_checkpoint`: updates `max_modified`
(`if page.modified_ms and page.modified_ms > max_modified`), then tries to
build and yield a document, skipping the page if construction raises.
Returns (yielded documents, final `max_modified`). -/
def runPages {α : Type} (process : XWikiPage → Option α) :
    List XWikiPage → Int → List α × Int
  | [], maxModified => ([], maxModified)
  | p :: rest, maxModified =>
    let m := p.modified_ms.getD 0
    let maxModified' := if m ≠ 0 ∧ maxModified < m then m else maxModified
    let out := runPages process rest maxModified'
    match process p with
    | some d => (d :: out.1, out.2)
    | none => out

/-- The `since_ms` value actually used for the batch: `load_from_checkpoint`
seeds it from the `start` timestamp (seconds, converted to ms) when the
incoming checkpoint has `since_ms = None` and `start` is truthy. -/
def effectiveSince (start : Nat) (checkpoint : XWikiCheckpoint) : Option Int :=
  if checkpoint.since_ms = none ∧ start ≠ 0 then some ((start : Int) * 1000)
  else checkpoint.since_ms

/-- Mirror of `XWikiConnector.load_from_checkpoint` as a pure function.
`pages`/`raw_count` stand for the two results of `self._client.query_pages`;
`process` stands for `process_xwiki_page` (`none` = the call raised, which the
loop catches and skips).  `start` is the caller-supplied start time in whole
seconds (`int(start * 1000)` collapsed to `start * 1000`).  Returns the
yielded documents and the returned checkpoint. -/
def load_from_checkpoint {α : Type} (process : XWikiPage → Option α)
    (start batch_size : Nat) (checkpoint : XWikiCheckpoint)
    (pages : List XWikiPage) (raw_count : Nat) : List α × XWikiCheckpoint :=
  let since0 := effectiveSince start checkpoint
  let r := runPages process pages (since0.getD 0)
  if batch_size ≤ raw_count then
    (r.1, { has_more := true, since_ms := since0,
            offset := checkpoint.offset + raw_count })
  else
    (r.1, { has_more := false,
            since_ms := if 0 < r.2 then some r.2 else since0,
            offset := 0 })

/-- The next `since_ms` as the claim describes it: the maximum of the incoming
threshold and all `modified_ms` values of pages seen in the batch, unchanged
when no page was seen.  Written from the claim's words, to be compared with
`load_from_checkpoint`. -/
def claimNextSince (incoming : Option Int) (pages : List XWikiPage) : Option Int :=
  if pages.isEmpty then incoming
  else some (pages.foldl (fun acc p => max acc (p.modified_ms.getD 0)) (incoming.getD 0))

/-! ### SOLR query construction (`onyx_xwiki.py`) -/

/-- Mirror of `XWikiClient._esc`: minimal escaping for quotes and backslashes
in a term. -/
def _esc (val : String) : String :=
  chReplace (chReplace val "\\" "\\\\") "\"" "\\\""

/-- Mirror of `XWikiClient._extract_space_from_page_reference`. -/
def _extract_space_from_page_reference (page_ref : String) : String :=
  if chEndsWith page_ref ".WebHome" then chDropRight page_ref 8
  else if chContains page_ref '.' then page_ref
  else page_ref

/-- Python `str.split()` with no argument: split on whitespace runs, dropping
empty parts (the source only ever meets space characters here). -/
def pySplitWhitespace (s : String) : List String :=
  (chSplitOn s " ").filter (fun w => w != "")

/-- Mirror of `XWikiClient._build_space_filter`.  (For an all-whitespace
multi-word `space`, Python's `words[-1]` would raise; `getLastD ""` stands in
for that degenerate input, which no claim touches.) -/
def _build_space_filter (space : String) (recursive : Bool) : String :=
  if recursive then
    if chContains space ' ' then
      let words := pySplitWhitespace space
      let required_terms := chIntercalate " " (words.dropLast.map (fun w => "+" ++ w))
      let last_word_wildcard := "+" ++ words.getLastD "" ++ "*"
      "space:(" ++ required_terms ++ " " ++ last_word_wildcard ++ ")"
    else
      "space:(" ++ space ++ "*)"
  else
    "space:\"" ++ _esc space ++ "\""

/-- Zero-padded decimal rendering (as produced by `strftime` field formats). -/
def padNum (width n : Nat) : String :=
  let s := toString n
  if s.length < width then String.mk (List.replicate (width - s.length) '0') ++ s else s

/-- Gregorian civil date (year, month, day) from days since the Unix epoch,
the standard era-based algorithm used by civil-time libraries; mirrors what
`datetime.fromtimestamp(_, tz=timezone.utc)` displays. -/
def civilFromDays (z0 : Int) : Int × Nat × Nat :=
  let z := z0 + 719468
  let era := Int.fdiv z 146097
  let doe := (z - era * 146097).toNat
  let yoe := (doe - doe / 1460 + doe / 36524 - doe / 146096) / 365
  let doy := doe - (365 * yoe + yoe / 4 - yoe / 100)
  let mp := (5 * doy + 2) / 153
  let d := doy - (153 * mp + 2) / 5 + 1
  let m := if mp < 10 then mp + 3 else mp - 9
  let y := era * 400 + yoe + (if m ≤ 2 then 1 else 0)
  (y, m, d)

/-- Mirror of `_build_modified_filter`: empty for `None`, otherwise an
inclusive lower-bound SOLR date range with the threshold rendered as UTC
`YYYY-MM-DDTHH:MM:SSZ` (`datetime.fromtimestamp(since_ms / 1000, utc)`
followed by `strftime`; sub-second truncation is floor division by 1000). -/
def _build_modified_filter (since_ms : Option Int) : String :=
  match since_ms with
  | none => ""
  | some ms =>
    let secs := Int.fdiv ms 1000
    let days := Int.fdiv secs 86400
    let sod := (secs - days * 86400).toNat
    let ymd := civilFromDays days
    "date:[" ++ padNum 4 ymd.1.toNat ++ "-" ++ padNum 2 ymd.2.1 ++ "-" ++
      padNum 2 ymd.2.2 ++ "T" ++ padNum 2 (sod / 3600) ++ ":" ++
      padNum 2 (sod % 3600 / 60) ++ ":" ++ padNum 2 (sod % 60) ++ "Z TO *]"

/-- One entry of the `queryTerms` list built by `_build_solr_query`, kept
symbolic so that theorems can speak about which kind of filter is present;
`renderQueryTerm` maps each constructor to the exact string the source
builds. -/
inductive QueryTerm where
  | typeDocument
  | hiddenFalse
  | spaceFilter (space : String) (recursive : Bool)
  | tagFilter (tag : String)
  | modifiedFilter (since_ms : Int)
deriving DecidableEq, Repr

/-- The exact term string `_build_solr_query` appends for each `QueryTerm`. -/
def renderQueryTerm : QueryTerm → String
  | .typeDocument => "type:(\"DOCUMENT\")"
  | .hiddenFalse => "hidden:false"
  | .spaceFilter s r => _build_space_filter s r
  | .tagFilter t => "(property.XWiki.TagClass.tags:\"" ++ _esc t ++ "\")"
  | .modifiedFilter ms => _build_modified_filter (some ms)

/-- The `queryTerms` list and extracted wiki parameter of
`XWikiClient._build_solr_query`: base terms, then the mutually exclusive
`root_page`/`tag` scope branch (with `wiki:` prefix extraction via
`str.partition`), then the time filter. -/
def _build_solr_query_terms (root_page tag : Option String)
    (index_recursively : Bool) (since_ms : Option Int) :
    List QueryTerm × Option String :=
  let baseTerms : List QueryTerm := [.typeDocument, .hiddenFalse]
  let timeTerms : List QueryTerm :=
    match since_ms with
    | none => []
    | some ms => [.modifiedFilter ms]
  if pyTruthyStr root_page then
    let rp := root_page.getD ""
    let parts := pyPartition rp ":"
    if parts.2.1 then
      (baseTerms ++ [.spaceFilter (_extract_space_from_page_reference parts.2.2) index_recursively]
         ++ timeTerms, some parts.1)
    else
      (baseTerms ++ [.spaceFilter (_extract_space_from_page_reference rp) index_recursively]
         ++ timeTerms, none)
  else if pyTruthyStr tag then
    (baseTerms ++ [.tagFilter (tag.getD "")] ++ timeTerms, none)
  else
    (baseTerms ++ timeTerms, none)

/-- Mirror of `XWikiClient._build_solr_query`: the joined query string
(`" AND ".join(f"({t})" for t in queryTerms if t)`) and the extracted wiki
parameter (`extra_params`, which holds at most the `"wiki"` key). -/
def _build_solr_query (root_page tag : Option String)
    (index_recursively : Bool) (since_ms : Option Int) : String × Option String :=
  let tp := _build_solr_query_terms root_page tag index_recursively since_ms
  (chIntercalate " AND "
     (((tp.1.map renderQueryTerm).filter (fun t => t != "")).map (fun t => "(" ++ t ++ ")")),
   tp.2)

/-! ### HTTP request and retry (`XWikiClient._request`) -/

/-- Mirror of the `XWikiError` exception hierarchy (`XWikiAuthenticationError`,
`XWikiUnexpectedResponse`), each carrying its message. -/
inductive XWikiError where
  | authenticationError (msg : String)
  | unexpectedResponse (msg : String)
deriving DecidableEq, Repr

/-- The response of one HTTP attempt, as read by `_request`. -/
structure HttpResponse where
  status_code : Nat
  text : String
deriving DecidableEq, Repr

/-- The `request_url` computation of `_request`: absolute URLs pass through,
relative ones are joined onto the base (`urljoin` collapsed for the
dot-segment-free paths the client uses). -/
def resolveRequestUrl (base_url url : String) : String :=
  if chStartsWith url "http" then url
  else base_url ++ "/" ++ chDropWhile url (fun c => c = '/')

/-- The body of `_request` for a single attempt: a 401 raises
`XWikiAuthenticationError`; an allowed or 2xx status returns the response;
anything else raises `XWikiUnexpectedResponse` with the truncated body. -/
def requestOnce (method request_url : String) (allow : List Nat)
    (response : HttpResponse) : Except XWikiError HttpResponse :=
  if response.status_code = 401 then
    .error (.authenticationError ("Authentication failed calling " ++ request_url))
  else if response.status_code ∈ allow ∨ (200 ≤ response.status_code ∧ response.status_code < 300) then
    .ok response
  else
    .error (.unexpectedResponse ("Unexpected status code " ++ toString response.status_code ++
      " for " ++ method ++ " " ++ request_url ++ ". Body: " ++ chTake response.text 500))

/-- Modelled from the spec: the bounded retry policy of
`onyx.utils.retry_wrapper.retry_builder` (the wrapper itself is not under
`src/`).  Per §5 it retries a failing call a fixed number of times with
backoff (delays are timing-only and not modelled); per §7 an authentication
failure is non-retryable and surfaces immediately.  `remaining` counts the
attempts still allowed after the current one; the returned `Nat` is the total
number of attempts made. -/
def retryGo {β : Type} (call : Nat → Except XWikiError β) :
    Nat → Nat → Except XWikiError β × Nat
  | 0, i => (call i, i + 1)
  | n + 1, i =>
    match call i with
    | .ok b => (.ok b, i + 1)
    | .error (.authenticationError m) => (.error (.authenticationError m), i + 1)
    | .error (.unexpectedResponse _) => retryGo call n (i + 1)

/-- Modelled from the spec: run `call` under the bounded retry policy with
`tries` total attempts (the source decorates `_request` with
`retry_builder(tries=3, ...)`). -/
def retryRun {β : Type} (tries : Nat) (call : Nat → Except XWikiError β) :
    Except XWikiError β × Nat :=
  retryGo call (tries - 1) 0

/-- Mirror of `XWikiClient._request` under its `retry_builder(tries=3, ...)`
decorator: `responses i` is the server's response to the i-th attempt;
returns the surfaced result and the number of attempts made. -/
def _request (base_url method url : String) (allow_status : Option (List Nat))
    (responses : Nat → HttpResponse) : Except XWikiError HttpResponse × Nat :=
  retryRun 3 (fun i =>
    requestOnce method (resolveRequestUrl base_url url) (allow_status.getD []) (responses i))

/-! ### Page resolution (`XWikiClient._load_page_data`) -/

/-- One entry of a search hit's link list (`rel`/`href` of a `link` object). -/
structure SolrLink where
  rel : Option String := none
  href : Option String := none
deriving DecidableEq, Repr

/-- A raw SOLR search hit as `_load_page_data` reads it.  The source's
normalization of the surrounding transport shapes (`links` vs `link` key, a
single dict vs a list) is collapsed to the resulting entry list; a `none`
entry is a non-dict item, skipped by the `isinstance(link, dict)` check. -/
structure SolrSearchHit where
  language : Option String := none
  links : List (Option SolrLink) := []
deriving DecidableEq, Repr

/-- One entry of the REST page-detail attachment list; `none`-valued fields
are absent keys.  A non-dict entry in the list is modelled as `none` at the
use site. -/
structure RestAttachmentEntry where
  name : Option String := none
  size : Option Int := none
  mimeType : Option String := none
  xwikiAbsoluteUrl : Option String := none
  download : Option String := none
  version : Option String := none
  digest : Option String := none
deriving DecidableEq, Repr

/-- The value of the page detail's `"attachments"` key: a dict that may hold a
nested `"attachments"` list (`none` = key absent or not a list). -/
structure RestAttachmentsObj where
  attachments : Option (List (Option RestAttachmentEntry)) := none
deriving DecidableEq, Repr

/-- The page-detail JSON as `_load_page_data` reads it (`dict.get` fields). -/
structure RestPageData where
  id : Option String := none
  xwikiAbsoluteUrl : Option String := none
  modified : Option Int := none
  fullName : Option String := none
  attachments : Option RestAttachmentsObj := none
deriving DecidableEq, Repr

/-- Environment of successful network collaborator calls for `XWikiClient`:
`fetch_page_data` is the JSON body fetched for a page REST URL (`none` = the
empty dict that `_fetch_page_data` returns on parse failure), `get_page_html`
the cleaned text `_get_page_html` produces for (page_url, full_name). -/
structure ClientEnv where
  fetch_page_data : String → Option RestPageData
  get_page_html : Option String → Option String → String

/-- Mirror of `XWikiClient._fetch_page_data`: falsy URL short-circuits to the
empty dict; otherwise the fetched (possibly empty) JSON body. -/
def _fetch_page_data (env : ClientEnv) (page_url : String) : Option RestPageData :=
  if page_url = "" then none else env.fetch_page_data page_url

/-- Python `a or b` over two optional strings (`None` and `""` are falsy). -/
def pyOrStr (a b : Option String) : Option String :=
  if a.getD "" != "" then a else b

/-- The entry loop of `_list_attachments`: non-dict entries and entries with a
falsy `name` are skipped; `url = entry.get("xwikiAbsoluteUrl") or
entry.get("download")` — if that leaves `None`, the pydantic
`XWikiAttachment(download_path=None)` construction raises (`exn`). -/
def _list_attachments_entries : List (Option RestAttachmentEntry) → PyResult (List XWikiAttachment)
  | [] => .ok []
  | none :: rest => _list_attachments_entries rest
  | some entry :: rest =>
    if entry.name.getD "" = "" then _list_attachments_entries rest
    else
      match pyOrStr entry.xwikiAbsoluteUrl entry.download with
      | none => .exn
      | some url =>
        match _list_attachments_entries rest with
        | .exn => .exn
        | .ok tail =>
          .ok ({ name := entry.name.getD "", size := entry.size,
                 mime_type := entry.mimeType, download_path := url,
                 version := entry.version, digest := entry.digest } :: tail)

/-- Mirror of `XWikiClient._list_attachments`: falsy input, a missing nested
`"attachments"` key, or a non-list value there all yield `[]`. -/
def _list_attachments (data : Option RestAttachmentsObj) : PyResult (List XWikiAttachment) :=
  match data with
  | none => .ok []
  | some obj =>
    match obj.attachments with
    | none => .ok []
    | some entries => _list_attachments_entries entries

/-- The rel value of the canonical (non-translation) page link. -/
def relPageLink : String := "http://www.xwiki.org/rel/page"

/-- The part of `_load_page_data` after the language filter: find the first
link with the page rel whose href does not point into `/translations/`;
dereference it; build the `XWikiPage` from the page detail. -/
def _load_page_data_resolve (env : ClientEnv) (document : SolrSearchHit) :
    PyResult (Option XWikiPage) :=
  let links := document.links.filterMap id
  match links.find? (fun l =>
      l.rel == some relPageLink && !(pyContainsSub (l.href.getD "") "/translations/")) with
  | none => .ok none
  | some l =>
    let page_rest_url := l.href.getD ""
    if page_rest_url = "" then .ok none
    else
      match _fetch_page_data env page_rest_url with
      | none => .ok none
      | some pageData =>
        match _list_attachments pageData.attachments with
        | .exn => .exn
        | .ok atts =>
          .ok (some { id := pageData.id, full_name := pageData.fullName,
                      page_url := pageData.xwikiAbsoluteUrl,
                      modified_ms := pageData.modified,
                      content := env.get_page_html pageData.xwikiAbsoluteUrl pageData.fullName,
                      attachments := atts })

/-- Mirror of `XWikiClient._load_page_data`: drop the hit unless its language
marker is in `(None, "", "null")`, then resolve it. -/
def _load_page_data (env : ClientEnv) (document : SolrSearchHit) :
    PyResult (Option XWikiPage) :=
  if document.language = none ∨ document.language = some "" ∨ document.language = some "null" then
    _load_page_data_resolve env document
  else
    .ok none

/-! ### Attachment pipeline (`utils.py`) -/

/-- Opaque stand-in for the `ImageSection` the image-storage collaborator
(`store_image_and_create_section`) returns. -/
structure ImageSection where
  file_id : String
  link : String
deriving DecidableEq, Repr

/-- Mirror of `AttachmentProcessingResult` (`utils.py`): a pydantic model with
three independent optional fields. -/
structure AttachmentProcessingResult where
  text : Option String := none
  image_section : Option ImageSection := none
  error : Option String := none
deriving DecidableEq, Repr

/-- Environment of external collaborators and configuration consumed by
`process_attachment`: the two Confluence-aliased thresholds, the
`onyx.file_processing` predicates, and the three fallible calls (attachment
download, text extraction, image storage — the last takes image bytes,
file id, display name, link, media type). -/
structure UtilsEnv where
  size_threshold : Int
  char_count_threshold : Nat
  is_valid_image_type : String → Bool
  is_accepted_file_ext : String → Bool
  download_attachment : XWikiAttachment → Except String (List UInt8)
  extract_file_text : List UInt8 → String → Except String String
  store_image_and_create_section :
    List UInt8 → String → String → String → String → Except String ImageSection

/-- Python `pathlib.Path(name).name`: the final path component. -/
def pyLastComponent (name : String) : String :=
  ((chSplitOn name "/").filter (fun c => c != "")).getLastD ""

/-- Python `pathlib.Path(name).suffix`: the extension (with dot) of the final
component — `name[i:]` for the last dot index `i` when `0 < i < len - 1`,
else empty. -/
def pySuffix (name : String) : String :=
  let base := pyLastComponent name
  let cs := base.data
  match cs.reverse.findIdx? (fun c => c = '.') with
  | none => ""
  | some rI =>
    let i := cs.length - 1 - rI
    if 0 < i ∧ i < cs.length - 1 then String.mk (cs.drop i) else ""

/-- Mirror of `validate_attachment_filetype`: images must pass the image-type
allow-list (on the lower-cased media type); non-images must carry an accepted
plain/document extension. -/
def validate_attachment_filetype (env : UtilsEnv) (attachment : XWikiAttachment) : Bool :=
  let media_type := chToLower (attachment.mime_type.getD "")
  if chStartsWith media_type "image/" then env.is_valid_image_type media_type
  else
    let suffix := pySuffix attachment.name
    if suffix = "" then false
    else env.is_accepted_file_ext suffix

/-- Mirror of `XWikiClient.attachment_download_url` (`urljoin` collapsed for
the dot-segment-free REST paths involved). -/
def attachment_download_url (base_url : String) (attachment : XWikiAttachment) : String :=
  if chStartsWith attachment.download_path "http" then attachment.download_path
  else base_url ++ "/" ++ chDropWhile attachment.download_path (fun c => c = '/')

/-- Mirror of `_make_storage_file_id`.  (`page_ref.full_name` is `Option`
here; a `none` would make Python raise `AttributeError` inside the guarded
image branch, which the caller catches into an error outcome — the `getD ""`
stand-in is only reachable for that degenerate page data and no claim
touches it.) -/
def _make_storage_file_id (page_ref : XWikiPage) (attachment : XWikiAttachment) : String :=
  let safe_page := chReplace (chReplace (page_ref.full_name.getD "") ":" "_") "/" "_"
  let safe_name := chReplace (chReplace attachment.name ":" "_") "/" "_"
  "xwiki-" ++ safe_page ++ "-" ++ safe_name

/-- The download-and-process tail of `process_attachment` (everything after
the type/size gates): download bytes, reject empty payloads, then store the
image or extract text under the character-count ceiling.  The `Bool` records
whether the download call was invoked. -/
def _attachment_download_phase (env : UtilsEnv) (page_ref : XWikiPage)
    (attachment : XWikiAttachment) (media_type download_url : String) :
    AttachmentProcessingResult × Bool :=
  match env.download_attachment attachment with
  | .error e => ({ error := some e }, true)
  | .ok raw_bytes =>
    if raw_bytes = [] then ({ error := some "Attachment content empty" }, true)
    else if chStartsWith media_type "image/" then
      match env.store_image_and_create_section raw_bytes
          (_make_storage_file_id page_ref attachment) attachment.name download_url
          (if media_type ≠ "" then media_type else "application/octet-stream") with
      | .ok sec => ({ image_section := some sec }, true)
      | .error e => ({ error := some e }, true)
    else
      match env.extract_file_text raw_bytes attachment.name with
      | .error e => ({ error := some e }, true)
      | .ok text =>
        if env.char_count_threshold < text.length then
          ({ error := some "Attachment text too long" }, true)
        else
          ({ text := if text = "" then none else some text }, true)

/-- Mirror of `process_attachment` (`utils.py`), instrumented: the `Bool`
records whether `client.download_attachment` was invoked.  Gates in source
order: file-type validation, then the image/`allow_images` gate, then the
declared-size ceiling for non-images, then the download phase. -/
def process_attachmentT (env : UtilsEnv) (base_url : String) (page_ref : XWikiPage)
    (attachment : XWikiAttachment) (allow_images : Bool) :
    AttachmentProcessingResult × Bool :=
  let media_type := attachment.mime_type.getD ""
  if validate_attachment_filetype env attachment = false then
    ({ error := some ("Unsupported file type: " ++
        (if media_type ≠ "" then media_type else attachment.name)) }, false)
  else
    let download_url := attachment_download_url base_url attachment
    let attachment_size := attachment.size.getD 0
    if chStartsWith media_type "image/" then
      if allow_images = false then
        ({ error := some "Image downloading is not enabled" }, false)
      else
        _attachment_download_phase env page_ref attachment media_type download_url
    else
      if attachment_size ≠ 0 ∧ env.size_threshold < attachment_size then
        ({ error := some "Attachment exceeds size limit" }, false)
      else
        _attachment_download_phase env page_ref attachment media_type download_url

/-- `process_attachment` proper: the result without the instrumentation. -/
def process_attachment (env : UtilsEnv) (base_url : String) (page_ref : XWikiPage)
    (attachment : XWikiAttachment) (allow_images : Bool) : AttachmentProcessingResult :=
  (process_attachmentT env base_url page_ref attachment allow_images).1

/-- Number of populated fields of an `AttachmentProcessingResult`. -/
def populatedCount (r : AttachmentProcessingResult) : Nat :=
  (if r.text.isSome then 1 else 0) + (if r.image_section.isSome then 1 else 0) +
    (if r.error.isSome then 1 else 0)

/-! ### Object-identity model of `load_from_checkpoint` (for the deep-copy
frame property): checkpoints live in a heap of references; the method body
allocates a fresh reference holding a copy of the caller's object
(`copy.deepcopy`) and performs every field write on that reference, in source
order. -/

/-- A heap of checkpoint objects: `mem` maps references to values, `next` is
the next fresh reference (every live reference is `< next`). -/
structure CpHeap where
  mem : Nat → XWikiCheckpoint
  next : Nat

/-- Allocate a fresh object holding `v`; returns the heap and its reference. -/
def heapAlloc (h : CpHeap) (v : XWikiCheckpoint) : CpHeap × Nat :=
  ({ mem := fun j => if j = h.next then v else h.mem j, next := h.next + 1 }, h.next)

/-- Mutate the object at reference `r` in place. -/
def heapWrite (h : CpHeap) (r : Nat) (f : XWikiCheckpoint → XWikiCheckpoint) : CpHeap :=
  { h with mem := fun j => if j = r then f (h.mem r) else h.mem j }

/-- `load_from_checkpoint` with explicit object identity: `r` is the caller's
checkpoint reference; the body deep-copies it into a fresh object and then
performs its writes (`cp.since_ms = ...`, `cp.offset += raw_count`,
`cp.has_more = ...`, and the batch-completion resets) on the copy only.
Returns the final heap, the returned object's reference, and the yielded
documents. -/
def load_from_checkpoint_heap {α : Type} (process : XWikiPage → Option α)
    (start batch_size : Nat) (h0 : CpHeap) (r : Nat)
    (pages : List XWikiPage) (raw_count : Nat) : CpHeap × Nat × List α :=
  let alloc := heapAlloc h0 (h0.mem r)
  let h1 := alloc.1
  let cp := alloc.2
  let h2 := heapWrite h1 cp (fun c =>
    if c.since_ms = none ∧ start ≠ 0 then { c with since_ms := some ((start : Int) * 1000) }
    else c)
  let run := runPages process pages (((h2.mem cp).since_ms).getD 0)
  let h3 := heapWrite h2 cp (fun c => { c with offset := c.offset + raw_count })
  let h4 := heapWrite h3 cp (fun c => { c with has_more := decide (batch_size ≤ raw_count) })
  let h5 :=
    if batch_size ≤ raw_count then h4
    else
      let ha := heapWrite h4 cp (fun c => { c with offset := 0 })
      if 0 < run.2 then heapWrite ha cp (fun c => { c with since_ms := some run.2 }) else ha
  (h5, cp, run.1)

/-! ## Theorems -/

/-- C6: for every combination of `root_page`, `tag`, `index_recursively` and
`since_ms`, the query built by `_build_solr_query` never holds both a space
filter term and a tag filter term; with `root_page` set the tag term is
absent, with only `tag` set the space term is absent, and with both absent no
scope term is added while the base type and hidden terms remain.  (Stated on
the symbolic `queryTerms` list; `renderQueryTerm` maps it to the exact joined
string.) -/
theorem C6_scope_filters_mutually_exclusive (root_page tag : Option String)
    (index_recursively : Bool) (since_ms : Option Int) :
    (¬ ((∃ s r, QueryTerm.spaceFilter s r ∈
          (_build_solr_query_terms root_page tag index_recursively since_ms).1) ∧
        (∃ t, QueryTerm.tagFilter t ∈
          (_build_solr_query_terms root_page tag index_recursively since_ms).1)))
    ∧ (pyTruthyStr root_page = true →
        ∀ t, QueryTerm.tagFilter t ∉
          (_build_solr_query_terms root_page tag index_recursively since_ms).1)
    ∧ (pyTruthyStr root_page = false → pyTruthyStr tag = true →
        ∀ s r, QueryTerm.spaceFilter s r ∉
          (_build_solr_query_terms root_page tag index_recursively since_ms).1)
    ∧ (pyTruthyStr root_page = false → pyTruthyStr tag = false →
        (_build_solr_query_terms root_page tag index_recursively since_ms).1 =
          [QueryTerm.typeDocument, QueryTerm.hiddenFalse] ++
            (match since_ms with
             | none => []
             | some ms => [QueryTerm.modifiedFilter ms])
        ∧ QueryTerm.typeDocument ∈
            (_build_solr_query_terms root_page tag index_recursively since_ms).1
        ∧ QueryTerm.hiddenFalse ∈
            (_build_solr_query_terms root_page tag index_recursively since_ms).1) := by
  cases hsm : since_ms <;>
    by_cases hr : pyTruthyStr root_page <;>
      by_cases ht : pyTruthyStr tag <;>
        simp [_build_solr_query_terms, hr, ht] <;>
          split <;> simp

/-- C6 witness: with a root page set and a tag set, only the space filter is
emitted; with only the tag, only the tag filter. -/
theorem C6_scope_filters_mutually_exclusive_witness :
    (∀ t, QueryTerm.tagFilter t ∉
      (_build_solr_query_terms (some "Sandbox") (some "atag") true none).1) ∧
    (∀ s r, QueryTerm.spaceFilter s r ∉
      (_build_solr_query_terms none (some "atag") true none).1) :=
  ⟨(C6_scope_filters_mutually_exclusive (some "Sandbox") (some "atag") true none).2.1
      (by decide),
   (C6_scope_filters_mutually_exclusive none (some "atag") true none).2.2.1
      (by decide) (by decide)⟩

/-- C7: `_build_space_filter` on the space "My Space" with `recursive = true`
produces the term requiring `+My` with a wildcard `+Space*` on the last word;
with `recursive = false` it produces the exact quoted term, via `_esc`, which
escapes backslash and double-quote characters. -/
theorem C7_space_filter_shape :
    _build_space_filter "My Space" true = "space:(+My +Space*)"
    ∧ _build_space_filter "My Space" false = "space:\"My Space\""
    ∧ _esc "a\\b\"c" = "a\\\\b\\\"c" := by
  refine ⟨by decide, by decide, by decide⟩

/-- C8: `_build_solr_query` on `root_page = "wikiA:Space.WebHome"` extracts
wiki "wikiA" into the extra parameters and filters on space "Space"; on
`root_page = "Space.WebHome"` no wiki is extracted and the space is "Space";
and any page reference not ending in ".WebHome" is used as the space
literally. -/
theorem C8_root_scope_parsing :
    (_build_solr_query_terms (some "wikiA:Space.WebHome") none true none =
      ([QueryTerm.typeDocument, QueryTerm.hiddenFalse, QueryTerm.spaceFilter "Space" true],
       some "wikiA"))
    ∧ (_build_solr_query_terms (some "Space.WebHome") none true none =
      ([QueryTerm.typeDocument, QueryTerm.hiddenFalse, QueryTerm.spaceFilter "Space" true],
       none))
    ∧ (∀ page_ref : String, chEndsWith page_ref ".WebHome" = false →
        _extract_space_from_page_reference page_ref = page_ref) := by
  refine ⟨by decide, by decide, fun page_ref h => ?_⟩
  simp [_extract_space_from_page_reference, h]

/-- C8 witness: "Help.Macros" does not end in ".WebHome" and is used as the
space literally. -/
theorem C8_root_scope_parsing_witness :
    chEndsWith "Help.Macros" ".WebHome" = false ∧
    _extract_space_from_page_reference "Help.Macros" = "Help.Macros" :=
  ⟨by decide, C8_root_scope_parsing.2.2 "Help.Macros" (by decide)⟩

/-- C3: a 401 response makes `_request` raise the authentication error on the
first attempt with no retry (one attempt made); any run of non-401,
non-allowed, non-2xx responses is retried up to the policy's three attempts
and then surfaces as an unexpected-response error. -/
theorem C3_auth_immediate_others_retried (base_url method url : String)
    (allow_status : Option (List Nat)) (responses : Nat → HttpResponse) :
    ((responses 0).status_code = 401 →
      _request base_url method url allow_status responses =
        (.error (.authenticationError
           ("Authentication failed calling " ++ resolveRequestUrl base_url url)), 1))
    ∧ ((∀ i, i < 3 → (responses i).status_code ≠ 401 ∧
          (responses i).status_code ∉ allow_status.getD [] ∧
          ¬ (200 ≤ (responses i).status_code ∧ (responses i).status_code < 300)) →
        ∃ msg, _request base_url method url allow_status responses =
          (.error (.unexpectedResponse msg), 3)) := by
  constructor
  · intro h401
    have h : requestOnce method (resolveRequestUrl base_url url) (allow_status.getD [])
        (responses 0) = .error (.authenticationError
          ("Authentication failed calling " ++ resolveRequestUrl base_url url)) := by
      unfold requestOnce
      rw [if_pos h401]
    unfold _request retryRun
    simp [retryGo, h]
  · intro hall
    have key : ∀ i, i < 3 → ∃ m,
        requestOnce method (resolveRequestUrl base_url url) (allow_status.getD [])
          (responses i) = .error (.unexpectedResponse m) := by
      intro i hi
      obtain ⟨h1, h2, h3⟩ := hall i hi
      refine ⟨"Unexpected status code " ++ toString (responses i).status_code ++ " for " ++
        method ++ " " ++ resolveRequestUrl base_url url ++ ". Body: " ++
        chTake (responses i).text 500, ?_⟩
      unfold requestOnce
      rw [if_neg h1, if_neg (not_or.mpr ⟨h2, h3⟩)]
    obtain ⟨m0, k0⟩ := key 0 (by norm_num)
    obtain ⟨m1, k1⟩ := key 1 (by norm_num)
    obtain ⟨m2, k2⟩ := key 2 (by norm_num)
    refine ⟨m2, ?_⟩
    unfold _request retryRun
    simp [retryGo, k0, k1, k2]

/-- C3 witness: a constant-401 server authenticates-fails in one attempt; a
constant-500 server is retried to three attempts and surfaces as an
unexpected response. -/
theorem C3_auth_immediate_others_retried_witness :
    (_request "http://x" "GET" "rest/wikis/query" none (fun _ => ⟨401, "no"⟩) =
      (.error (.authenticationError
         ("Authentication failed calling " ++ resolveRequestUrl "http://x" "rest/wikis/query")), 1))
    ∧ (∃ msg, _request "http://x" "GET" "rest/wikis/query" none (fun _ => ⟨500, "boom"⟩) =
        (.error (.unexpectedResponse msg), 3)) :=
  ⟨(C3_auth_immediate_others_retried "http://x" "GET" "rest/wikis/query" none
      (fun _ => ⟨401, "no"⟩)).1 rfl,
   (C3_auth_immediate_others_retried "http://x" "GET" "rest/wikis/query" none
      (fun _ => ⟨500, "boom"⟩)).2 (fun i _ => by refine ⟨by decide, by simp, by decide⟩)⟩

/-- A client environment whose page-detail fetch and content fetch succeed,
used to exercise `_load_page_data` end to end. -/
def sampleClientEnv : ClientEnv where
  fetch_page_data := fun _ => some
    { id := some "xwiki:Sandbox.P", xwikiAbsoluteUrl := some "http://x/bin/view/Sandbox/P",
      modified := some 1700000000000, fullName := some "Sandbox.P", attachments := none }
  get_page_html := fun _ _ => "page text"

/-- A raw search hit whose language marker is the literal string "null" and
whose link list carries a resolvable canonical page link. -/
def hitLangNull : SolrSearchHit where
  language := some "null"
  links := [some { rel := some relPageLink,
                   href := some "http://x/rest/wikis/xwiki/spaces/Sandbox/pages/P" }]

/-- A raw search hit identical to `hitLangNull` but marked as the French
translation. -/
def hitLangFrench : SolrSearchHit where
  language := some "fr"
  links := [some { rel := some relPageLink,
                   href := some "http://x/rest/wikis/xwiki/spaces/Sandbox/pages/P" }]

/-- C4 counterexample: the hit `hitLangNull` has the non-empty language
marker "null", yet `_load_page_data` resolves it to a page record — so "every
hit whose language marker is non-empty produces no page record" is false as
stated (the source keeps markers in `(None, "", "null")`). -/
theorem C4_translation_dedup_counterexample :
    hitLangNull.language = some "null" ∧ ("null".data ≠ "".data) ∧
    _load_page_data sampleClientEnv hitLangNull ≠ PyResult.ok none := by
  refine ⟨rfl, by decide, by decide⟩

/-- C4 (amended): a hit whose language marker is non-empty and different from
the literal string "null" never produces a page record; hits whose marker is
absent, empty, or the literal "null" are kept and proceed to page
resolution. -/
theorem C4_translation_dedup (env : ClientEnv) (document : SolrSearchHit) :
    (∀ l, document.language = some l → l ≠ "" → l ≠ "null" →
      _load_page_data env document = PyResult.ok none)
    ∧ ((document.language = none ∨ document.language = some "" ∨
        document.language = some "null") →
      _load_page_data env document = _load_page_data_resolve env document) := by
  constructor
  · intro l hl he hn
    unfold _load_page_data
    rw [if_neg]
    rw [hl]
    push_neg
    exact ⟨by simp, by simp [he], by simp [hn]⟩
  · intro hkept
    unfold _load_page_data
    rw [if_pos hkept]

/-- C4 witness: the French-translation hit is dropped; the "null"-marked hit
is kept and resolved. -/
theorem C4_translation_dedup_witness :
    _load_page_data sampleClientEnv hitLangFrench = PyResult.ok none ∧
    _load_page_data sampleClientEnv hitLangNull =
      _load_page_data_resolve sampleClientEnv hitLangNull :=
  ⟨(C4_translation_dedup sampleClientEnv hitLangFrench).1 "fr" rfl (by decide) (by decide),
   (C4_translation_dedup sampleClientEnv hitLangNull).2 (by simp [hitLangNull])⟩

/-- Helper for C2: through the download/extract phase, at most one result
field is populated, and a fully unpopulated result arises only from a
successful download followed by a successful extraction of empty text. -/
theorem attachment_download_phase_at_most_one (env : UtilsEnv) (page_ref : XWikiPage)
    (attachment : XWikiAttachment) (media_type download_url : String) :
    populatedCount (_attachment_download_phase env page_ref attachment media_type download_url).1 ≤ 1
    ∧ (populatedCount (_attachment_download_phase env page_ref attachment media_type download_url).1 = 0 →
        ∃ raw_bytes, env.download_attachment attachment = .ok raw_bytes ∧
          env.extract_file_text raw_bytes attachment.name = .ok "") := by
  unfold _attachment_download_phase
  cases hdl : env.download_attachment attachment with
  | error e => simp [populatedCount]
  | ok raw_bytes =>
    by_cases hempty : raw_bytes = []
    · simp [hempty, populatedCount]
    · simp only [if_neg hempty]
      by_cases him : chStartsWith media_type "image/"
      · simp only [him, if_pos]
        cases hst : env.store_image_and_create_section raw_bytes
            (_make_storage_file_id page_ref attachment) attachment.name download_url
            (if media_type ≠ "" then media_type else "application/octet-stream") with
        | ok sec => simp [populatedCount]
        | error e => simp [populatedCount]
      · simp only [him, if_neg, Bool.false_eq_true, if_false]
        cases hex : env.extract_file_text raw_bytes attachment.name with
        | error e => simp [populatedCount]
        | ok text =>
          by_cases hlen : env.char_count_threshold < text.length
          · simp [hlen, populatedCount]
          · by_cases htxt : text = ""
            · subst htxt
              simp only [hlen, if_neg, if_pos rfl, if_true]
              exact ⟨by simp [populatedCount], fun _ => ⟨raw_bytes, rfl, hex⟩⟩
            · simp [hlen, htxt, populatedCount]

/-- C2 (amended): for every attachment, at most one of the three fields of
the `process_attachment` result is populated; the only way to get zero
populated fields is a non-image attachment whose download succeeded and whose
text extraction succeeded with empty text (the `text or None` mapping of the
source). -/
theorem C2_at_most_one_outcome (env : UtilsEnv) (base_url : String)
    (page_ref : XWikiPage) (attachment : XWikiAttachment) (allow_images : Bool) :
    populatedCount (process_attachment env base_url page_ref attachment allow_images) ≤ 1
    ∧ (populatedCount (process_attachment env base_url page_ref attachment allow_images) = 0 →
        ∃ raw_bytes, env.download_attachment attachment = .ok raw_bytes ∧
          env.extract_file_text raw_bytes attachment.name = .ok "") := by
  unfold process_attachment process_attachmentT
  by_cases hv : validate_attachment_filetype env attachment = false
  · simp [hv, populatedCount]
  · simp only [hv, if_neg, if_false]
    by_cases him : chStartsWith (attachment.mime_type.getD "") "image/"
    · simp only [him, if_pos]
      by_cases hai : allow_images = false
      · simp [hai, populatedCount]
      · simp only [hai, if_neg, if_false]
        exact attachment_download_phase_at_most_one env page_ref attachment _ _
    · simp only [him, Bool.false_eq_true, if_neg, if_false]
      by_cases hsz : attachment.size.getD 0 ≠ 0 ∧
          env.size_threshold < attachment.size.getD 0
      · simp [hsz, populatedCount]
      · simp only [hsz, if_neg, if_false]
        exact attachment_download_phase_at_most_one env page_ref attachment _ _

/-- A utils environment whose download succeeds and whose text extraction
returns the empty string. -/
def emptyTextEnv : UtilsEnv where
  size_threshold := 10485760
  char_count_threshold := 200000
  is_valid_image_type := fun _ => true
  is_accepted_file_ext := fun s => s = ".txt" || s = ".pdf"
  download_attachment := fun _ => .ok [104, 105]
  extract_file_text := fun _ _ => .ok ""
  store_image_and_create_section := fun _ _ _ _ _ => .error "unused"

/-- A plain-text attachment of declared size 4. -/
def txtAttachment : XWikiAttachment where
  name := "notes.txt"
  size := some 4
  mime_type := some "text/plain"
  download_path := "/xwiki/rest/attach/notes.txt"

/-- A page record owning no attachments, used as the `page_ref` argument. -/
def samplePage : XWikiPage where
  id := some "xwiki:Main.P"
  full_name := some "Main.P"
  page_url := some "http://x/bin/view/Main/P"
  modified_ms := some 1700000000000
  content := "body"
  attachments := []

/-- C2 counterexample: a supported document attachment whose extraction
succeeds with empty text yields a result with zero populated fields — not
exactly one — refuting "never none". -/
theorem C2_exactly_one_counterexample :
    populatedCount (process_attachment emptyTextEnv "http://x" samplePage txtAttachment false) ≠ 1 := by
  decide

/-- C2 witness: the amended at-most-one bound and the empty-text
characterization, instantiated at the concrete empty-text run. -/
theorem C2_at_most_one_outcome_witness :
    populatedCount (process_attachment emptyTextEnv "http://x" samplePage txtAttachment false) ≤ 1
    ∧ (∃ raw_bytes, emptyTextEnv.download_attachment txtAttachment = .ok raw_bytes ∧
        emptyTextEnv.extract_file_text raw_bytes txtAttachment.name = .ok "") :=
  ⟨(C2_at_most_one_outcome emptyTextEnv "http://x" samplePage txtAttachment false).1,
   (C2_at_most_one_outcome emptyTextEnv "http://x" samplePage txtAttachment false).2 (by decide)⟩

/-- C5: an image attachment (image media type, passing the image-type
validation) processed with `allow_images = false` always yields an error
outcome and never an image payload; and a non-image attachment whose declared
size exceeds the (non-negative) size threshold yields an error outcome with
the download call never invoked. -/
theorem C5_attachment_policy_gates (env : UtilsEnv) (base_url : String)
    (page_ref : XWikiPage) (attachment : XWikiAttachment) (allow_images : Bool) :
    (chStartsWith (attachment.mime_type.getD "") "image/" = true →
      validate_attachment_filetype env attachment = true →
      (process_attachmentT env base_url page_ref attachment false).1.error.isSome = true
      ∧ (process_attachmentT env base_url page_ref attachment false).1.image_section = none)
    ∧ (chStartsWith (attachment.mime_type.getD "") "image/" = false →
       0 ≤ env.size_threshold →
       env.size_threshold < attachment.size.getD 0 →
       (process_attachmentT env base_url page_ref attachment allow_images).1.error.isSome = true
       ∧ (process_attachmentT env base_url page_ref attachment allow_images).2 = false) := by
  constructor
  · intro him hv
    unfold process_attachmentT
    simp [hv, him]
  · intro him h0 hsz
    have hnz : attachment.size.getD 0 ≠ 0 := by
      intro hz
      rw [hz] at hsz
      exact absurd h0 (not_le.mpr hsz)
    unfold process_attachmentT
    by_cases hv : validate_attachment_filetype env attachment = false
    · simp [hv]
    · simp [hv, him, hnz, hsz]

/-- An environment accepting every image type, with all collaborator calls
succeeding. -/
def permissiveEnv : UtilsEnv where
  size_threshold := 10485760
  char_count_threshold := 200000
  is_valid_image_type := fun _ => true
  is_accepted_file_ext := fun _ => true
  download_attachment := fun _ => .ok [1, 2, 3]
  extract_file_text := fun _ _ => .ok "sample"
  store_image_and_create_section := fun _ _ _ _ _ => .ok { file_id := "fid", link := "l" }

/-- A PNG image attachment. -/
def pngAttachment : XWikiAttachment where
  name := "pic.png"
  size := some 5
  mime_type := some "image/png"
  download_path := "http://x/pic.png"

/-- A PDF attachment whose declared size exceeds the threshold. -/
def oversizedAttachment : XWikiAttachment where
  name := "big.pdf"
  size := some 99999999
  mime_type := some "application/pdf"
  download_path := "/xwiki/rest/attach/big.pdf"

/-- C5 witness: the PNG with images disabled errors without an image payload;
the oversized PDF errors without invoking the download call. -/
theorem C5_attachment_policy_gates_witness :
    ((process_attachmentT permissiveEnv "http://x" samplePage pngAttachment false).1.error.isSome = true
     ∧ (process_attachmentT permissiveEnv "http://x" samplePage pngAttachment false).1.image_section = none)
    ∧ ((process_attachmentT permissiveEnv "http://x" samplePage oversizedAttachment true).1.error.isSome = true
       ∧ (process_attachmentT permissiveEnv "http://x" samplePage oversizedAttachment true).2 = false) :=
  ⟨(C5_attachment_policy_gates permissiveEnv "http://x" samplePage pngAttachment false).1
      (by decide) (by decide),
   (C5_attachment_policy_gates permissiveEnv "http://x" samplePage oversizedAttachment true).2
      (by decide) (by decide) (by decide)⟩

/-- The `max_modified` accumulator of the batch loop equals a `max`-fold over
the pages, provided no page carries the falsy modified time `0` (real
modification times are positive epoch milliseconds). -/
theorem runPages_snd_eq_foldl {α : Type} (process : XWikiPage → Option α) :
    ∀ (pages : List XWikiPage) (a : Int), (∀ p ∈ pages, p.modified_ms.getD 0 ≠ 0) →
      (runPages process pages a).2 =
        pages.foldl (fun acc p => max acc (p.modified_ms.getD 0)) a := by
  intro pages
  induction pages with
  | nil => intro a _; rfl
  | cons p rest ih =>
    intro a hall
    have hp := hall p (List.mem_cons_self p rest)
    have hrest : ∀ q ∈ rest, q.modified_ms.getD 0 ≠ 0 :=
      fun q hq => hall q (List.mem_cons_of_mem p hq)
    have hstep : (runPages process (p :: rest) a).2 =
        (runPages process rest
          (if p.modified_ms.getD 0 ≠ 0 ∧ a < p.modified_ms.getD 0
           then p.modified_ms.getD 0 else a)).2 := by
      simp only [runPages]
      cases process p <;> rfl
    rw [hstep, ih _ hrest, List.foldl_cons]
    congr 1
    by_cases hlt : a < p.modified_ms.getD 0
    · rw [if_pos ⟨hp, hlt⟩, max_eq_right hlt.le]
    · rw [if_neg (fun hc => hlt hc.2), max_eq_left (le_of_not_lt hlt)]

/-- The `max`-fold over pages dominates its initial value. -/
theorem foldl_max_le_self (pages : List XWikiPage) :
    ∀ a : Int, a ≤ pages.foldl (fun acc p => max acc (p.modified_ms.getD 0)) a := by
  induction pages with
  | nil => intro a; exact le_refl a
  | cons p rest ih => intro a; exact le_trans (le_max_left _ _) (ih _)

/-- The `max`-fold over pages dominates every member's modified time. -/
theorem foldl_max_le_mem (pages : List XWikiPage) (p : XWikiPage) (hp : p ∈ pages) :
    ∀ a : Int, p.modified_ms.getD 0 ≤
      pages.foldl (fun acc q => max acc (q.modified_ms.getD 0)) a := by
  induction pages with
  | nil => cases hp
  | cons q rest ih =>
    intro a
    rcases List.mem_cons.mp hp with h | h
    · subst h
      exact le_trans (le_max_right _ _) (foldl_max_le_self rest _)
    · exact ih h _

/-- C1: for every call, the returned checkpoint has `has_more` equal to
`raw_hit_count >= batch_size`; on a full batch the offset is the incoming
offset plus the raw hit count; and on a short batch the offset is reset to 0
and `since_ms` becomes the maximum of the effective incoming threshold (the
checkpoint's `since_ms`, seeded from `start` when null) and all modified
times of pages seen, unchanged when no page was seen.  Pages are assumed to
carry positive epoch-millisecond modification times. -/
theorem C1_cursor_transition_law {α : Type} (process : XWikiPage → Option α)
    (start batch_size : Nat) (checkpoint : XWikiCheckpoint)
    (pages : List XWikiPage) (raw_count : Nat)
    (hpos : ∀ p ∈ pages, ∃ m : Int, p.modified_ms = some m ∧ 0 < m) :
    ((load_from_checkpoint process start batch_size checkpoint pages raw_count).2.has_more
       = decide (batch_size ≤ raw_count))
    ∧ (batch_size ≤ raw_count →
        (load_from_checkpoint process start batch_size checkpoint pages raw_count).2.offset
          = checkpoint.offset + raw_count)
    ∧ (raw_count < batch_size →
        (load_from_checkpoint process start batch_size checkpoint pages raw_count).2.offset = 0
        ∧ (load_from_checkpoint process start batch_size checkpoint pages raw_count).2.since_ms
            = claimNextSince (effectiveSince start checkpoint) pages) := by
  have hposD : ∀ p ∈ pages, 0 < p.modified_ms.getD 0 := by
    intro p hp
    obtain ⟨m, hm, h0⟩ := hpos p hp
    rw [hm]
    exact h0
  have hall : ∀ p ∈ pages, p.modified_ms.getD 0 ≠ 0 :=
    fun p hp => (hposD p hp).ne'
  by_cases hbr : batch_size ≤ raw_count
  · refine ⟨?_, fun _ => ?_, fun hlt => absurd hbr (not_le.mpr hlt)⟩ <;>
      simp [load_from_checkpoint, hbr]
  · refine ⟨?_, fun hle => absurd hle hbr, fun _ => ⟨?_, ?_⟩⟩
    · simp [load_from_checkpoint, hbr]
    · simp [load_from_checkpoint, hbr]
    · simp only [load_from_checkpoint, if_neg hbr]
      rw [runPages_snd_eq_foldl process pages _ hall]
      cases pages with
      | nil =>
        cases hs : effectiveSince start checkpoint with
        | none => simp [claimNextSince]
        | some k =>
          simp only [claimNextSince, List.isEmpty_nil, if_pos, List.foldl_nil,
            Option.getD_some, if_true]
          by_cases h0 : (0 : Int) < k <;> simp [h0]
      | cons p rest =>
        have h0 : 0 < (p :: rest).foldl
            (fun acc q => max acc (q.modified_ms.getD 0))
            ((effectiveSince start checkpoint).getD 0) :=
          lt_of_lt_of_le (hposD p (List.mem_cons_self p rest))
            (foldl_max_le_mem (p :: rest) p (List.mem_cons_self p rest) _)
        rw [if_pos h0]
        simp [claimNextSince]

/-- A one-page batch with a fresh modification time, for the witnesses. -/
def recentPage : XWikiPage where
  id := some "xwiki:Main.W"
  full_name := some "Main.W"
  page_url := some "http://x/bin/view/Main/W"
  modified_ms := some 1700000000007
  content := "w"
  attachments := []

/-- C1 witness: a short batch (1 raw hit against batch size 2) resets the
offset and advances `since_ms` per the claim. -/
theorem C1_cursor_transition_law_witness :
    ((load_from_checkpoint (fun _ => (none : Option Unit)) 0 2
        { has_more := true, since_ms := some 5, offset := 3 } [recentPage] 1).2.offset = 0)
    ∧ ((load_from_checkpoint (fun _ => (none : Option Unit)) 0 2
        { has_more := true, since_ms := some 5, offset := 3 } [recentPage] 1).2.since_ms
      = claimNextSince (effectiveSince 0 { has_more := true, since_ms := some 5, offset := 3 })
          [recentPage]) :=
  (C1_cursor_transition_law (fun _ => (none : Option Unit)) 0 2
      { has_more := true, since_ms := some 5, offset := 3 } [recentPage] 1
      (by intro p hp; rw [List.mem_singleton] at hp; subst hp;
          exact ⟨1700000000007, rfl, by norm_num⟩)).2.2 (by norm_num)

/-- The cursor bookkeeping of the batch loop is independent of whether page
processing succeeds or raises. -/
theorem runPages_snd_indep {α β : Type} (process : XWikiPage → Option α)
    (other : XWikiPage → Option β) :
    ∀ (pages : List XWikiPage) (a : Int),
      (runPages process pages a).2 = (runPages other pages a).2 := by
  intro pages
  induction pages with
  | nil => intro a; rfl
  | cons p rest ih =>
    intro a
    simp only [runPages]
    cases process p <;> cases other p <;> simp [ih]

/-- The documents yielded by the batch loop are exactly the pages whose
processing succeeded, in order. -/
theorem runPages_fst_filterMap {α : Type} (process : XWikiPage → Option α) :
    ∀ (pages : List XWikiPage) (a : Int),
      (runPages process pages a).1 = pages.filterMap process := by
  intro pages
  induction pages with
  | nil => intro a; rfl
  | cons p rest ih =>
    intro a
    simp only [runPages, List.filterMap_cons]
    cases process p <;> simp [ih]

/-- C9: per-page failure isolation — the checkpoint returned by
`load_from_checkpoint` is the same no matter which pages' document
construction raised, and the yielded documents are exactly the successfully
constructed ones in batch order (failed pages are skipped, the batch
continues). -/
theorem C9_per_page_failure_isolation {α β : Type} (process : XWikiPage → Option α)
    (other : XWikiPage → Option β) (start batch_size : Nat)
    (checkpoint : XWikiCheckpoint) (pages : List XWikiPage) (raw_count : Nat) :
    ((load_from_checkpoint process start batch_size checkpoint pages raw_count).2 =
      (load_from_checkpoint other start batch_size checkpoint pages raw_count).2)
    ∧ (load_from_checkpoint process start batch_size checkpoint pages raw_count).1 =
        pages.filterMap process := by
  constructor
  · by_cases hb : batch_size ≤ raw_count <;>
      simp [load_from_checkpoint, hb, runPages_snd_indep process other pages]
  · by_cases hb : batch_size ≤ raw_count <;>
      simp [load_from_checkpoint, hb, runPages_fst_filterMap]

/-- C10: `load_from_checkpoint` never mutates the caller's checkpoint object:
in the heap model it deep-copies the object at `r` into a fresh reference and
performs every write there, so the caller's object is unchanged, the returned
reference is distinct from `r`, and the returned object holds exactly the
pure-function result. -/
theorem C10_checkpoint_not_mutated {α : Type} (process : XWikiPage → Option α)
    (start batch_size : Nat) (h0 : CpHeap) (r : Nat)
    (pages : List XWikiPage) (raw_count : Nat) (hr : r < h0.next) :
    ((load_from_checkpoint_heap process start batch_size h0 r pages raw_count).1.mem r
       = h0.mem r)
    ∧ (load_from_checkpoint_heap process start batch_size h0 r pages raw_count).2.1 ≠ r
    ∧ (load_from_checkpoint_heap process start batch_size h0 r pages raw_count).1.mem
        (load_from_checkpoint_heap process start batch_size h0 r pages raw_count).2.1
      = (load_from_checkpoint process start batch_size (h0.mem r) pages raw_count).2 := by
  have hne : r ≠ h0.next := Nat.ne_of_lt hr
  refine ⟨?_, ?_, ?_⟩
  · by_cases hb : batch_size ≤ raw_count <;>
      [skip; by_cases hm : 0 < (runPages process pages
        ((if (h0.mem r).since_ms = none ∧ start ≠ 0
          then { h0.mem r with since_ms := some ((start : Int) * 1000) }
          else h0.mem r).since_ms.getD 0)).2] <;>
      simp [load_from_checkpoint_heap, heapAlloc, heapWrite, hne, *]
  · by_cases hb : batch_size ≤ raw_count <;>
      simp [load_from_checkpoint_heap, heapAlloc, heapWrite, hb, hne.symm]
  · simp only [load_from_checkpoint_heap, heapAlloc, heapWrite, load_from_checkpoint,
      effectiveSince]
    by_cases hb : batch_size ≤ raw_count <;>
      simp [hb, hne] <;>
      by_cases hseed : (h0.mem r).since_ms = none ∧ start ≠ 0 <;>
      simp [hseed] <;> split_ifs <;> simp

/-- A one-object heap whose only reference, 0, holds a default checkpoint. -/
def singletonHeap : CpHeap where
  mem := fun _ => {}
  next := 1

/-- C10 witness: with the caller's checkpoint at reference 0, the heap run
leaves reference 0 untouched, returns a distinct reference, and that
reference holds the pure result. -/
theorem C10_checkpoint_not_mutated_witness :
    ((load_from_checkpoint_heap (fun _ => (none : Option Unit)) 7 2 singletonHeap 0 [] 0).1.mem 0
       = singletonHeap.mem 0)
    ∧ (load_from_checkpoint_heap (fun _ => (none : Option Unit)) 7 2 singletonHeap 0 [] 0).2.1 ≠ 0
    ∧ (load_from_checkpoint_heap (fun _ => (none : Option Unit)) 7 2 singletonHeap 0 [] 0).1.mem
        (load_from_checkpoint_heap (fun _ => (none : Option Unit)) 7 2 singletonHeap 0 [] 0).2.1
      = (load_from_checkpoint (fun _ => (none : Option Unit)) 7 2 (singletonHeap.mem 0) [] 0).2 :=
  C10_checkpoint_not_mutated (fun _ => (none : Option Unit)) 7 2 singletonHeap 0 [] 0
    (by decide)
